import Mathlib

/-!
Shallow embedding of `twitchrecorder.py` (Dawok/twitchrecorder).

The program is a polling loop (`TwitchRecorder.check_stream_continuously`)
that classifies API responses (`TwitchRecorder.check_user`) into a closed
status enumeration, reacts to each status (notifications, credential
refresh, capture, fatal exit), and a post-processing path
(`process_recorded_files`, `process_recorded_file`,
`ffmpeg_copy_and_fix_errors`) over the filesystem.

Pure fragments (status classification, filename sanitization) are embedded
as Lean functions of the request outcome.  Effectful fragments are embedded
as functions from explicit environments (API outcomes, subprocess
behaviours, directory listings) to event traces and explicit filesystem
states.
-/

set_option autoImplicit false

/-- `class TwitchResponseStatus(enum.Enum)` — lines 16-21 of
`twitchrecorder.py`. -/
inductive TwitchResponseStatus where
  | online
  | offline
  | notFound
  | unauthorized
  | error
deriving DecidableEq, Repr

/-- A stream record of the API response's `data` array.  The program reads
only the `title` field (`channel.get("title")`, line 115). -/
structure Channel where
  title : String
deriving DecidableEq, Repr

/-- The parsed JSON body returned by `r.json()`.  The program reads only
`info["data"]`, a list of stream records (lines 112, 185). -/
structure Body where
  data : List Channel
deriving DecidableEq, Repr

/-- A `requests.exceptions.RequestException`: it either carries a response
object (`e.response` set, with its HTTP status code) or does not
(`e.response is None`: connection errors, timeouts, JSON decode errors). -/
inductive ReqError where
  | withResponse (statusCode : Nat)
  | noResponse
deriving DecidableEq, Repr

/-- The combined outcome of `requests.get` + `raise_for_status` + `r.json()`
in `check_user` (lines 182-184): either the request succeeded and the body
parsed (`none` models a JSON `null` body), or a `RequestException` was
raised. -/
inductive ApiOutcome where
  | success (body : Option Body)
  | failure (e : ReqError)
deriving DecidableEq, Repr

/-- Python truthiness of `e.response` (line 193: `if e.response:`).
`requests.models.Response.__bool__` is documented as "Returns True if
`status_code` is less than 400" (it returns `self.ok`), so a present
response is truthy only when its status code is below 400; an absent
response (`None`) is falsy. -/
def responseTruthy : ReqError → Bool
  | ReqError.withResponse code => decide (code < 400)
  | ReqError.noResponse => false

/-- `TwitchRecorder.check_user`, lines 177-198.  `status` starts as `ERROR`
and `info` as `None`; on success the body decides `OFFLINE`/`ONLINE`; on a
`RequestException` the 401/404 mapping runs only under `if e.response:`
(see `responseTruthy`).  The two sequential `if` statements on lines
194-197 mean a 404 check runs after the 401 check; the status codes are
mutually exclusive, so the order is immaterial.  (The update of
`self.stream_start_time` on lines 190-191 is state of the polling loop and
is modelled in `tick` below.) -/
def check_user (o : ApiOutcome) : TwitchResponseStatus × Option Body :=
  match o with
  | ApiOutcome.success body =>
      match body with
      | none => (TwitchResponseStatus.offline, none)
      | some b =>
          if b.data.isEmpty then (TwitchResponseStatus.offline, some b)
          else (TwitchResponseStatus.online, some b)
  | ApiOutcome.failure e =>
      if responseTruthy e then
        match e with
        | ReqError.withResponse code =>
            if code = 404 then (TwitchResponseStatus.notFound, none)
            else if code = 401 then (TwitchResponseStatus.unauthorized, none)
            else (TwitchResponseStatus.error, none)
        | ReqError.noResponse => (TwitchResponseStatus.error, none)
      else (TwitchResponseStatus.error, none)

/-- The only channel information the program ever derives from the parsed
body: `channel = next(iter(info["data"]), None)` (line 113), i.e. the first
record of the `data` array, or nothing. -/
def channelInfoOf (info : Option Body) : Option Channel :=
  match info with
  | none => none
  | some b => b.data.head?

/-- The character filter of line 118:
`x.isalnum() or x in [" ", "-", "_", "."]`.  `pyIsAlnum` models Python's
Unicode-aware `str.isalnum` on the Basic Latin (ASCII) and Latin-1
Supplement blocks: ASCII digits and letters, and the Latin-1 letters and
numeric characters U+00AA, U+00B2, U+00B3, U+00B5, U+00B9, U+00BA,
U+00BC-U+00BE, U+00C0-U+00D6, U+00D8-U+00F6, U+00F8-U+00FF.  Code points
above U+00FF are outside the model. -/
def pyIsAlnum (c : Char) : Bool :=
  let n := c.toNat
  (48 ≤ n && n ≤ 57) || (65 ≤ n && n ≤ 90) || (97 ≤ n && n ≤ 122) ||
  (n = 0xAA) || (n = 0xB2) || (n = 0xB3) || (n = 0xB5) || (n = 0xB9) ||
  (n = 0xBA) || (0xBC ≤ n && n ≤ 0xBE) ||
  (0xC0 ≤ n && n ≤ 0xD6) || (0xD8 ≤ n && n ≤ 0xF6) || (0xF8 ≤ n && n ≤ 0xFF)

/-- The predicate of the generator expression on line 118. -/
def keepChar (c : Char) : Bool :=
  pyIsAlnum c || c = ' ' || c = '-' || c = '_' || c = '.'

/-- Line 118: `"".join(x for x in filename if x.isalnum() or x in ...)`. -/
def sanitize (s : String) : String :=
  String.mk (s.data.filter keepChar)

/-- The character class `[A-Za-z0-9 _.-]` named by the specification's
sanitization property (spec §8); written from the spec's words, to be
compared against what `sanitize` actually keeps. -/
def specAsciiClass (c : Char) : Bool :=
  let n := c.toNat
  (48 ≤ n && n ≤ 57) || (65 ≤ n && n ≤ 90) || (97 ≤ n && n ≤ 122) ||
  c = ' ' || c = '_' || c = '.' || c = '-'

/-- Line 114-115: `filename = self.username + " - " + now.strftime(...) +
" - " + channel.get("title") + ".mp4"`, then sanitized on line 118. -/
def mkFilename (username now title : String) : String :=
  sanitize (username ++ " - " ++ now ++ " - " ++ title ++ ".mp4")

/-- `os.path.join` on POSIX with relative, separator-free components. -/
def pathJoin (a b : String) : String := a ++ "/" ++ b

/-- The configuration the polling loop reads: `self.username` and
`self.root_path` (lines 29, 32). -/
structure Config where
  username : String
  root_path : String
deriving DecidableEq, Repr

/-- The mutable recorder state the loop touches: `self.access_token`
(lines 41, 106) and `self.stream_start_time` (lines 42, 98-100,
190-191). -/
structure RecState where
  access_token : String
  stream_start_time : Option String
deriving DecidableEq, Repr

/-- `self.refresh = 15` (line 28): the sleep between polls. -/
def refreshInterval : Nat := 15

/-- Observable actions of one run, in program order:  `check token` is a
`check_user` call performed with the given bearer token; the notify events
are the three Discord messages (lines 65-75); `fetchToken` is
`fetch_access_token` (line 106); `capture` is the `streamlink` subprocess
call (lines 124-126); `processFile` is a `process_recorded_file` call;
`mkdir` is `os.makedirs`; `startLoopThread` is starting the
`check_stream_continuously` thread (lines 79-80); `crash` is an uncaught
exception ending the polling thread. -/
inductive Event where
  | check (token : String)
  | notifyStart
  | notifyStop
  | notifyError
  | fetchToken
  | sleep (seconds : Nat)
  | capture (path : String)
  | processFile (recorded processed : String)
  | mkdir (path : String)
  | startLoopThread
  | exitProcess
  | crash
deriving DecidableEq, Repr

/-- The environment of a single loop iteration: the classifier result the
iteration dispatches on (the pair returned by `check_user` on line 87), the
`datetime.now()` string used in the filename (line 114), the
`datetime.utcnow()` date recorded as stream start time (line 191), whether
`os.path.exists(recorded_filename)` holds after `streamlink` exits
(line 129), and the token `fetch_access_token` would return if invoked
(line 106). -/
structure TickEnv where
  status : TwitchResponseStatus
  info : Option Body
  now : String
  today : String
  captureProduces : Bool
  newToken : String
deriving DecidableEq, Repr

/-- One iteration of the `while True` body of
`TwitchRecorder.check_stream_continuously` (lines 86-135), as a function of
the recorder state and the iteration's environment.  Returns the events of
the iteration in program order, the state afterwards, and whether the
iteration ends the loop (`sys.exit()` on line 96, or an uncaught exception
in the `ONLINE` branch when `info` is `None` — `info["data"]` raises on
line 112 — or its `data` array is empty — `channel` is `None` and
`channel.get` raises on line 115).  The `stream_start_time` update of the
`ONLINE` case is the one `check_user` performs on lines 190-191 before
returning. -/
def tick (cfg : Config) (st : RecState) (t : TickEnv) : List Event × RecState × Bool :=
  let checkEv := Event.check st.access_token
  match t.status with
  | TwitchResponseStatus.notFound =>
      ([checkEv, Event.sleep refreshInterval], st, false)
  | TwitchResponseStatus.error =>
      ([checkEv, Event.notifyError, Event.sleep 2, Event.exitProcess], st, true)
  | TwitchResponseStatus.offline =>
      match st.stream_start_time with
      | some _ =>
          ([checkEv, Event.notifyStop, Event.sleep refreshInterval],
           RecState.mk st.access_token none, false)
      | none => ([checkEv, Event.sleep refreshInterval], st, false)
  | TwitchResponseStatus.unauthorized =>
      ([checkEv, Event.fetchToken, Event.notifyError],
       RecState.mk t.newToken st.stream_start_time, false)
  | TwitchResponseStatus.online =>
      let sst := match st.stream_start_time with
        | some d => some d
        | none => some t.today
      match t.info with
      | none =>
          ([checkEv, Event.notifyStart, Event.crash],
           RecState.mk st.access_token sst, true)
      | some b =>
          match b.data with
          | [] =>
              ([checkEv, Event.notifyStart, Event.crash],
               RecState.mk st.access_token sst, true)
          | ch :: _ =>
              let filename := mkFilename cfg.username t.now ch.title
              let recorded :=
                pathJoin (pathJoin (pathJoin cfg.root_path "recorded") cfg.username) filename
              let processed :=
                pathJoin (pathJoin (pathJoin cfg.root_path "processed") cfg.username) filename
              ([checkEv, Event.notifyStart, Event.capture recorded] ++
                 (if t.captureProduces then [Event.processFile recorded processed] else []) ++
                 [Event.sleep refreshInterval],
               RecState.mk st.access_token sst, false)

/-- Whether an iteration with this environment ends the loop; a function of
the environment alone (cf. `tick`). -/
def tickStops (t : TickEnv) : Bool :=
  match t.status with
  | TwitchResponseStatus.error => true
  | TwitchResponseStatus.online =>
      match t.info with
      | none => true
      | some b => b.data.isEmpty
  | _ => false

/-- The `while True` loop of `check_stream_continuously`, run against a
finite list of iteration environments (one per poll); the run ends early
when an iteration exits or crashes. -/
def loopRun (cfg : Config) (st : RecState) : List TickEnv → List Event
  | [] => []
  | t :: rest =>
      if (tick cfg st t).2.2 then (tick cfg st t).1
      else (tick cfg st t).1 ++ loopRun cfg (tick cfg st t).2.1 rest

/-- The recorder state after a list of iterations. -/
def endState (cfg : Config) (st : RecState) : List TickEnv → RecState
  | [] => st
  | t :: rest => endState cfg (tick cfg st t).2.1 rest

/-- A filesystem fragment: paths mapped to file contents (byte lists). -/
abbrev FS := List (String × List Nat)

/-- First-match lookup of a path's contents. -/
def lookupFile (fs : FS) (p : String) : Option (List Nat) :=
  match fs with
  | [] => none
  | (q, b) :: rest => if q = p then some b else lookupFile rest p

/-- `os.path.exists` over the modelled filesystem. -/
def fileExists (fs : FS) (p : String) : Bool :=
  (lookupFile fs p).isSome

/-- `os.remove p` (also the unlink half of a move): drop the path. -/
def removeFile (fs : FS) (p : String) : FS :=
  match fs with
  | [] => []
  | (q, b) :: rest =>
      if q = p then removeFile rest p else (q, b) :: removeFile rest p

/-- Write contents at a path, replacing any previous file there. -/
def setFile (fs : FS) (p : String) (b : List Nat) : FS :=
  (p, b) :: removeFile fs p

/-- The behaviour of the `ffmpeg` invocation `subprocess.call(...)` on
lines 170-172: either spawning raises an exception (e.g. the binary is
missing), or the process runs and returns an exit code, having written the
given contents to the output path (`none`: nothing written).
`subprocess.call` returns the exit code and never raises on a non-zero
exit. -/
inductive TranscodeOutcome where
  | raises
  | exits (code : Int) (written : Option (List Nat))
deriving DecidableEq, Repr

/-- `TwitchRecorder.ffmpeg_copy_and_fix_errors`, lines 168-175: inside one
`try`, run `ffmpeg` then `os.remove(recorded_filename)`; any exception is
caught and logged.  If spawning raises, the filesystem is untouched.  If
the process runs, its output (if any) lands at `processed_filename` and
then `os.remove` deletes the raw file — the exit code is never
inspected. -/
def ffmpeg_copy_and_fix_errors (beh : TranscodeOutcome)
    (recorded_filename processed_filename : String) (fs : FS) : FS :=
  match beh with
  | TranscodeOutcome.raises => fs
  | TranscodeOutcome.exits _ written =>
      let fs1 := match written with
        | some bytes => setFile fs processed_filename bytes
        | none => fs
      removeFile fs1 recorded_filename

/-- Result of a `process_recorded_file` call: the filesystem afterwards and
whether an exception propagated to the caller. -/
structure ProcResult where
  fs : FS
  raised : Bool
deriving DecidableEq, Repr

/-- `shutil.move(src, dst)` (line 163), modelled per its documented
semantics: when the destination is writable the file's bytes end up at
`dst` and `src` is gone; when the destination cannot be written (or `src`
is missing) it raises an `IOError`/`OSError` before unlinking, leaving the
filesystem unchanged.  `destWritable` is the environment's answer to
whether the destination directory accepts the file. -/
def shutil_move (destWritable : Bool) (src dst : String) (fs : FS) : ProcResult :=
  if destWritable then
    match lookupFile fs src with
    | some bytes => ProcResult.mk (setFile (removeFile fs src) dst bytes) false
    | none => ProcResult.mk fs true
  else ProcResult.mk fs true

/-- `TwitchRecorder.process_recorded_file`, lines 160-166: with
`disable_ffmpeg` set it is exactly `shutil.move` (whose exception would
propagate); otherwise it is `ffmpeg_copy_and_fix_errors`, which catches
every exception itself and never raises. -/
def process_recorded_file (disable_ffmpeg : Bool) (beh : TranscodeOutcome)
    (destWritable : Bool) (recorded_filename processed_filename : String)
    (fs : FS) : ProcResult :=
  if disable_ffmpeg then
    shutil_move destWritable recorded_filename processed_filename fs
  else
    ProcResult.mk
      (ffmpeg_copy_and_fix_errors beh recorded_filename processed_filename fs) false

/-- One entry of the recorded directory as the startup sweep sees it: its
name (from `os.listdir`, line 150), whether `os.path.isfile` holds for it
(line 150), and whether the `process_recorded_file` call on it raises
(line 156).  Such a raise is reachable with `--disable-ffmpeg`, where
`shutil.move` can raise an `IOError`; with ffmpeg enabled,
`ffmpeg_copy_and_fix_errors` catches every exception itself and the call
never raises. -/
structure SweepEntry where
  name : String
  isfile : Bool
  raises : Bool
deriving DecidableEq, Repr

/-- Environment of the startup sweep: whether the two directories already
exist (`os.path.isdir`, lines 144-147) and the recorded directory's
listing. -/
structure SweepEnv where
  recordedDirExists : Bool
  processedDirExists : Bool
  entries : List SweepEntry
deriving DecidableEq, Repr

/-- The `for f in video_list` loop of lines 153-156, which runs inside the
single `try` of lines 149-158: each file gets one `process_recorded_file`
call in listing order; if a call raises, the exception propagates out of
the `for` loop to the `except` (which only logs it, lines 157-158), so the
sweep is aborted and the remaining files of the listing get no call at
all. -/
def sweepFiles (rp pp : String) : List SweepEntry → List Event
  | [] => []
  | e :: rest =>
      Event.processFile (pathJoin rp e.name) (pathJoin pp e.name) ::
        (if e.raises then [] else sweepFiles rp pp rest)

/-- `TwitchRecorder.process_recorded_files`, lines 137-158, as its event
trace: create the missing directories (lines 144-147, outside the `try`),
filter the listing to regular files (line 150), then run the processing
loop — which a raising call aborts, see `sweepFiles`. -/
def process_recorded_files (cfg : Config) (env : SweepEnv) : List Event :=
  let recorded_path := pathJoin (pathJoin cfg.root_path "recorded") cfg.username
  let processed_path := pathJoin (pathJoin cfg.root_path "processed") cfg.username
  (if env.recordedDirExists then [] else [Event.mkdir recorded_path]) ++
  (if env.processedDirExists then [] else [Event.mkdir processed_path]) ++
  sweepFiles recorded_path processed_path (env.entries.filter (fun e => e.isfile))

/-- `TwitchRecorder.run`, lines 77-83, as the main thread's event trace:
first `stream_check_thread.start()` (the polling loop may begin from this
point, concurrently), then `process_recorded_files` runs on the main
thread. -/
def run (cfg : Config) (env : SweepEnv) : List Event :=
  Event.startLoopThread :: process_recorded_files cfg env

/-! ## Helper lemmas -/

theorem lookup_removeFile_self (fs : FS) (p : String) :
    lookupFile (removeFile fs p) p = none := by
  induction fs with
  | nil => rfl
  | cons e rest ih =>
      obtain ⟨q, b⟩ := e
      by_cases h : q = p
      · simp [removeFile, h, ih]
      · simp [removeFile, lookupFile, h, ih]

theorem tick_stop_eq (cfg : Config) (st : RecState) (t : TickEnv) :
    (tick cfg st t).2.2 = tickStops t := by
  obtain ⟨tok, sst⟩ := st
  obtain ⟨status, info, tnow, today, cp, nt⟩ := t
  cases status with
  | notFound => rfl
  | error => rfl
  | unauthorized => rfl
  | offline => cases sst <;> rfl
  | online =>
      cases info with
      | none => rfl
      | some b =>
          obtain ⟨data⟩ := b
          cases data <;> rfl

theorem tick_events_head (cfg : Config) (st : RecState) (t : TickEnv) :
    ∃ tl, (tick cfg st t).1 = Event.check st.access_token :: tl := by
  obtain ⟨tok, sst⟩ := st
  obtain ⟨status, info, tnow, today, cp, nt⟩ := t
  cases status with
  | notFound => exact ⟨_, rfl⟩
  | error => exact ⟨_, rfl⟩
  | unauthorized => exact ⟨_, rfl⟩
  | offline => cases sst <;> exact ⟨_, rfl⟩
  | online =>
      cases info with
      | none => exact ⟨_, rfl⟩
      | some b =>
          obtain ⟨data⟩ := b
          cases data with
          | nil => exact ⟨_, rfl⟩
          | cons ch chs => exact ⟨_, rfl⟩

theorem exitProcess_not_mem_tick (cfg : Config) (st : RecState) (t : TickEnv)
    (h : tickStops t = false) : Event.exitProcess ∉ (tick cfg st t).1 := by
  obtain ⟨tok, sst⟩ := st
  obtain ⟨status, info, tnow, today, cp, nt⟩ := t
  cases status with
  | notFound => simp [tick]
  | error => simp [tickStops] at h
  | unauthorized => simp [tick]
  | offline => cases sst <;> simp [tick]
  | online =>
      cases info with
      | none => simp [tickStops] at h
      | some b =>
          obtain ⟨data⟩ := b
          cases data with
          | nil => simp [tickStops] at h
          | cons ch chs => cases cp <;> simp [tick]

theorem loopRun_append (cfg : Config) (st : RecState) (pre rest : List TickEnv)
    (h : ∀ t ∈ pre, tickStops t = false) :
    loopRun cfg st (pre ++ rest) =
      loopRun cfg st pre ++ loopRun cfg (endState cfg st pre) rest := by
  induction pre generalizing st with
  | nil => simp [loopRun, endState]
  | cons t pre ih =>
      have ht : (tick cfg st t).2.2 = false := by
        rw [tick_stop_eq]; exact h t (List.mem_cons_self t pre)
      simp only [List.cons_append, loopRun, endState, ht, Bool.false_eq_true, if_false,
        List.append_eq]
      rw [ih _ (fun x hx => h x (List.mem_cons_of_mem t hx)), List.append_assoc]

theorem exitProcess_not_mem_loopRun (cfg : Config) (st : RecState)
    (l : List TickEnv) (h : ∀ t ∈ l, tickStops t = false) :
    Event.exitProcess ∉ loopRun cfg st l := by
  induction l generalizing st with
  | nil => simp [loopRun]
  | cons t rest ih =>
      have ht : (tick cfg st t).2.2 = false := by
        rw [tick_stop_eq]; exact h t (List.mem_cons_self t rest)
      simp only [loopRun, ht, Bool.false_eq_true, if_false, List.mem_append]
      push_neg
      exact ⟨exitProcess_not_mem_tick cfg st t (h t (List.mem_cons_self t rest)),
        ih _ (fun x hx => h x (List.mem_cons_of_mem t hx))⟩

theorem loopRun_cons_head (cfg : Config) (st : RecState) (t : TickEnv)
    (rest : List TickEnv) :
    (loopRun cfg st (t :: rest)).head? = some (Event.check st.access_token) := by
  obtain ⟨tl, htl⟩ := tick_events_head cfg st t
  by_cases hstop : (tick cfg st t).2.2 = true
  · simp [loopRun, hstop, htl]
  · simp only [Bool.not_eq_true] at hstop
    simp [loopRun, hstop, htl]

/-! ## Claim theorems -/

/-- **C3** (code evaluated at the failing inputs).  The claim says an HTTP
401 response maps to `Unauthorized` and a 404 to `NotFound`.  The code
guards the mapping with `if e.response:` (line 193), and `requests`'
`Response.__bool__` returns `status_code < 400`, so for the error responses
`raise_for_status` produces the guard is always false: `check_user`
returns `ERROR` (with no info) for both a 401 and a 404 response, and the
401/404 branches on lines 194-197 are unreachable. -/
theorem check_user_401_404_yield_error :
    check_user (ApiOutcome.failure (ReqError.withResponse 401)) =
      (TwitchResponseStatus.error, none) ∧
    check_user (ApiOutcome.failure (ReqError.withResponse 404)) =
      (TwitchResponseStatus.error, none) ∧
    check_user (ApiOutcome.failure ReqError.noResponse) =
      (TwitchResponseStatus.error, none) :=
  ⟨rfl, rfl, rfl⟩

/-- **C4.**  For every successful API response whose `data` array is empty,
`check_user` returns `OFFLINE`, and no channel record accompanies the
result: the only channel information the program derives from the returned
pair (`next(iter(info["data"]), None)`, line 113) is `None`. -/
theorem check_user_empty_data_offline_no_channel (b : Body)
    (hb : b.data = []) :
    (check_user (ApiOutcome.success (some b))).1 = TwitchResponseStatus.offline ∧
    channelInfoOf (check_user (ApiOutcome.success (some b))).2 = none := by
  obtain ⟨data⟩ := b
  have hd : data = [] := hb
  subst hd
  exact ⟨rfl, rfl⟩

/-- Witness for `check_user_empty_data_offline_no_channel` at the body
`{"data": []}`. -/
theorem check_user_empty_data_offline_no_channel_witness :
    (check_user (ApiOutcome.success (some (Body.mk [])))).1 =
      TwitchResponseStatus.offline ∧
    channelInfoOf (check_user (ApiOutcome.success (some (Body.mk [])))).2 = none :=
  check_user_empty_data_offline_no_channel (Body.mk []) rfl

/-- **C7.**  For every successful API response whose `data` array is
non-empty, `check_user` returns `ONLINE`, the channel information derived
from the result is the first record of the `data` array, and a polling
iteration that receives this result captures to a filename built from that
first record's title (lines 112-126). -/
theorem check_user_nonempty_data_online_first_record (b : Body) (ch : Channel)
    (chs : List Channel) (cfg : Config) (st : RecState) (t : TickEnv)
    (hb : b.data = ch :: chs)
    (hstatus : t.status = TwitchResponseStatus.online)
    (hinfo : t.info = some b) :
    (check_user (ApiOutcome.success (some b))).1 = TwitchResponseStatus.online ∧
    channelInfoOf (check_user (ApiOutcome.success (some b))).2 = some ch ∧
    Event.capture
        (pathJoin (pathJoin (pathJoin cfg.root_path "recorded") cfg.username)
          (mkFilename cfg.username t.now ch.title)) ∈ (tick cfg st t).1 := by
  obtain ⟨data⟩ := b
  have hd : data = ch :: chs := hb
  subst hd
  refine ⟨rfl, rfl, ?_⟩
  obtain ⟨status, info, tnow, today, cp, nt⟩ := t
  obtain ⟨tok, sst⟩ := st
  have hs : status = TwitchResponseStatus.online := hstatus
  subst hs
  have hi : info = some (Body.mk (ch :: chs)) := hinfo
  subst hi
  cases cp <;> simp [tick]

/-- Witness for `check_user_nonempty_data_online_first_record` at the body
`{"data": [{"title": "Foo"}]}` and a concrete online iteration. -/
theorem check_user_nonempty_data_online_first_record_witness :
    (check_user (ApiOutcome.success (some (Body.mk [Channel.mk "Foo"])))).1 =
      TwitchResponseStatus.online ∧
    channelInfoOf
        (check_user (ApiOutcome.success (some (Body.mk [Channel.mk "Foo"])))).2 =
      some (Channel.mk "Foo") ∧
    Event.capture
        (pathJoin (pathJoin (pathJoin "root" "recorded") "chan")
          (mkFilename "chan" "240101 00h00m00s" (Channel.mk "Foo").title)) ∈
      (tick (Config.mk "chan" "root") (RecState.mk "tok0" none)
        (TickEnv.mk TwitchResponseStatus.online (some (Body.mk [Channel.mk "Foo"]))
          "240101 00h00m00s" "20240101" true "")).1 :=
  check_user_nonempty_data_online_first_record (Body.mk [Channel.mk "Foo"])
    (Channel.mk "Foo") [] (Config.mk "chan" "root") (RecState.mk "tok0" none)
    (TickEnv.mk TwitchResponseStatus.online (some (Body.mk [Channel.mk "Foo"]))
      "240101 00h00m00s" "20240101" true "")
    rfl rfl rfl

/-- **C10.**  Whenever `check_user` returns a status other than `ONLINE` or
`OFFLINE`, the `info` component of its result is `None`: `info` is only
assigned after `raise_for_status` succeeds, and every exception path leaves
it `None` (lines 178-198). -/
theorem check_user_non_online_offline_has_no_info (o : ApiOutcome)
    (h1 : (check_user o).1 ≠ TwitchResponseStatus.online)
    (h2 : (check_user o).1 ≠ TwitchResponseStatus.offline) :
    (check_user o).2 = none := by
  cases o with
  | success body =>
      cases body with
      | none => exact absurd rfl h2
      | some b =>
          obtain ⟨data⟩ := b
          cases data with
          | nil => exact absurd rfl h2
          | cons ch chs => exact absurd rfl h1
  | failure e =>
      cases e with
      | noResponse => rfl
      | withResponse code =>
          by_cases hlt : code < 400
          · by_cases h404 : code = 404
            · simp [check_user, responseTruthy, hlt, h404]
            · by_cases h401 : code = 401
              · simp [check_user, responseTruthy, hlt, h404, h401]
              · simp [check_user, responseTruthy, hlt, h404, h401]
          · simp [check_user, responseTruthy, hlt]

/-- Witness for `check_user_non_online_offline_has_no_info` at a
connection failure (a `RequestException` with `e.response is None`). -/
theorem check_user_non_online_offline_has_no_info_witness :
    (check_user (ApiOutcome.failure ReqError.noResponse)).2 = none :=
  check_user_non_online_offline_has_no_info (ApiOutcome.failure ReqError.noResponse)
    (by decide) (by decide)

/-- **C5, counterexample.**  The claim says sanitization never produces a
character outside `[A-Za-z0-9 _.-]`.  Python's `str.isalnum` is
Unicode-aware, so the non-ASCII letter `é` (U+00E9) passes the filter on
line 118: `sanitize "é" = "é"`, whose character is outside the claimed
ASCII class. -/
theorem sanitize_keeps_non_ascii_alnum :
    sanitize "é" = "é" ∧ 'é' ∈ (sanitize "é").data ∧
    specAsciiClass 'é' = false := by
  refine ⟨?_, ?_, ?_⟩ <;> decide

/-- **C5, amended.**  Sanitization is idempotent, and its output contains
only characters the filter of line 118 keeps: Unicode alphanumerics
(`str.isalnum`) together with space, hyphen, underscore and dot — not the
ASCII-only class the claim states. -/
theorem sanitize_idempotent_and_filter_closed (s : String) :
    sanitize (sanitize s) = sanitize s ∧
    (sanitize s).data.all keepChar = true := by
  constructor
  · have h : (s.data.filter keepChar).filter keepChar = s.data.filter keepChar :=
      List.filter_eq_self.mpr (fun a ha => (List.mem_filter.mp ha).2)
    exact congrArg String.mk h
  · exact List.all_eq_true.mpr (fun a ha => (List.mem_filter.mp ha).2)

/-- **C1, counterexample.**  The claim says that when the transcoder
reports failure the raw file is not deleted, and that the raw file is
deleted only after the destination has been written.  `subprocess.call`
returns the exit code and does not raise on a non-zero exit, so
`os.remove(recorded_filename)` on line 173 runs regardless: with the
transcoder exiting with code 1 and writing nothing, the raw file is
deleted anyway and no destination file exists. -/
theorem ffmpeg_nonzero_exit_still_deletes_raw :
    fileExists
        (ffmpeg_copy_and_fix_errors (TranscodeOutcome.exits 1 none) "raw.mp4"
          "out.mp4" [("raw.mp4", [1, 2, 3])]) "raw.mp4" = false ∧
    fileExists
        (ffmpeg_copy_and_fix_errors (TranscodeOutcome.exits 1 none) "raw.mp4"
          "out.mp4" [("raw.mp4", [1, 2, 3])]) "out.mp4" = false ∧
    (1 : Int) ≠ 0 := by
  refine ⟨?_, ?_, ?_⟩ <;> decide

/-- **C1, amended.**  With processing enabled, the raw file survives only
when the transcoder invocation raises an exception (e.g. the binary cannot
be spawned), in which case the filesystem is untouched; if the transcoder
process runs and exits — with any exit code, success or failure — the raw
file is deleted unconditionally, the exit code never being inspected
(lines 168-175). -/
theorem ffmpeg_raw_survives_only_spawn_failure (code : Int)
    (written : Option (List Nat)) (raw dest : String) (fs : FS) :
    ffmpeg_copy_and_fix_errors TranscodeOutcome.raises raw dest fs = fs ∧
    fileExists (ffmpeg_copy_and_fix_errors (TranscodeOutcome.exits code written)
        raw dest fs) raw = false := by
  constructor
  · rfl
  · cases written with
    | none => simp [ffmpeg_copy_and_fix_errors, fileExists, lookup_removeFile_self]
    | some bytes =>
        simp [ffmpeg_copy_and_fix_errors, fileExists, lookup_removeFile_self]

theorem lookup_removeFile_ne (fs : FS) (p q : String) (h : p ≠ q) :
    lookupFile (removeFile fs q) p = lookupFile fs p := by
  induction fs with
  | nil => rfl
  | cons e rest ih =>
      obtain ⟨r, b⟩ := e
      by_cases hr : r = q
      · subst hr
        have : ¬(r = p) := fun hrp => h hrp.symm
        simp [removeFile, lookupFile, this, ih]
      · by_cases hp : r = p
        · simp [removeFile, lookupFile, hr, hp, h]
        · simp [removeFile, lookupFile, hr, hp, ih]

/-- **C8.**  With processing disabled, `process_recorded_file` is exactly
`shutil.move` (line 163): when the destination is writable, nothing is
raised, the destination holds the source's bytes and the source is gone;
when the move cannot complete, an `IOError` propagates and the filesystem
— in particular the source file — is untouched. -/
theorem process_disabled_pure_move (beh : TranscodeOutcome) (raw dest : String)
    (fs : FS) (bytes : List Nat)
    (h1 : lookupFile fs raw = some bytes) (h2 : raw ≠ dest) :
    (process_recorded_file true beh true raw dest fs).raised = false ∧
    lookupFile (process_recorded_file true beh true raw dest fs).fs dest =
      some bytes ∧
    fileExists (process_recorded_file true beh true raw dest fs).fs raw = false ∧
    (process_recorded_file true beh false raw dest fs).raised = true ∧
    (process_recorded_file true beh false raw dest fs).fs = fs := by
  have hne : dest ≠ raw := fun h => h2 h.symm
  refine ⟨?_, ?_, ?_, rfl, rfl⟩
  · simp [process_recorded_file, shutil_move, h1]
  · simp [process_recorded_file, shutil_move, h1, setFile, lookupFile]
  · simp [process_recorded_file, shutil_move, h1, setFile, fileExists, lookupFile,
      hne, lookup_removeFile_ne _ _ _ h2, lookup_removeFile_self]

/-- Witness for `process_disabled_pure_move`: moving the one-byte file
`"a"` to `"b"`. -/
theorem process_disabled_pure_move_witness :
    (process_recorded_file true TranscodeOutcome.raises true "a" "b"
        [("a", [7])]).raised = false ∧
    lookupFile (process_recorded_file true TranscodeOutcome.raises true "a" "b"
        [("a", [7])]).fs "b" = some [7] ∧
    fileExists (process_recorded_file true TranscodeOutcome.raises true "a" "b"
        [("a", [7])]).fs "a" = false ∧
    (process_recorded_file true TranscodeOutcome.raises false "a" "b"
        [("a", [7])]).raised = true ∧
    (process_recorded_file true TranscodeOutcome.raises false "a" "b"
        [("a", [7])]).fs = [("a", [7])] :=
  process_disabled_pure_move TranscodeOutcome.raises "a" "b" [("a", [7])] [7]
    (by decide) (by decide)

/-- **C2.**  If every iteration before some poll neither exits nor
crashes and that poll's status check returns `ERROR`, then the whole run's
events are the earlier iterations' events followed by exactly the erroring
check, one error notification, a 2-second backoff sleep and process
termination (lines 91-96) — the remaining iteration environments are never
polled — and no process exit occurs among the earlier iterations'
events. -/
theorem error_tick_notifies_once_and_exits (cfg : Config) (st : RecState)
    (pre : List TickEnv) (t : TickEnv) (post : List TickEnv)
    (hpre : ∀ x ∈ pre, tickStops x = false)
    (ht : t.status = TwitchResponseStatus.error) :
    loopRun cfg st (pre ++ t :: post) =
      loopRun cfg st pre ++
        [Event.check (endState cfg st pre).access_token, Event.notifyError,
         Event.sleep 2, Event.exitProcess] ∧
    Event.exitProcess ∉ loopRun cfg st pre := by
  refine ⟨?_, exitProcess_not_mem_loopRun cfg st pre hpre⟩
  rw [loopRun_append cfg st pre (t :: post) hpre]
  congr 1
  obtain ⟨status, info, tnow, today, cp, nt⟩ := t
  have hs : status = TwitchResponseStatus.error := ht
  subst hs
  rfl

/-- Witness for `error_tick_notifies_once_and_exits`: one offline poll,
then an erroring poll, with one more (never reached) environment after
it. -/
theorem error_tick_notifies_once_and_exits_witness :
    loopRun (Config.mk "chan" "root") (RecState.mk "tok0" none)
        ([TickEnv.mk TwitchResponseStatus.offline none "" "" false ""] ++
          TickEnv.mk TwitchResponseStatus.error none "" "" false "" ::
            [TickEnv.mk TwitchResponseStatus.offline none "" "" false ""]) =
      loopRun (Config.mk "chan" "root") (RecState.mk "tok0" none)
          [TickEnv.mk TwitchResponseStatus.offline none "" "" false ""] ++
        [Event.check
            (endState (Config.mk "chan" "root") (RecState.mk "tok0" none)
              [TickEnv.mk TwitchResponseStatus.offline none "" "" false ""]).access_token,
         Event.notifyError, Event.sleep 2, Event.exitProcess] ∧
    Event.exitProcess ∉
      loopRun (Config.mk "chan" "root") (RecState.mk "tok0" none)
        [TickEnv.mk TwitchResponseStatus.offline none "" "" false ""] :=
  error_tick_notifies_once_and_exits (Config.mk "chan" "root")
    (RecState.mk "tok0" none)
    [TickEnv.mk TwitchResponseStatus.offline none "" "" false ""]
    (TickEnv.mk TwitchResponseStatus.error none "" "" false "")
    [TickEnv.mk TwitchResponseStatus.offline none "" "" false ""]
    (by decide) rfl

/-- **C6.**  If every iteration before some poll neither exits nor crashes
and that poll's status check returns `UNAUTHORIZED`, then between that
check and the next one the run performs exactly one credential refresh
(`fetch_access_token`, line 106) and one error-kind notification
(line 107), the loop continues with the remaining environments, and the
next status check is performed with the refreshed token. -/
theorem unauthorized_tick_refreshes_token (cfg : Config) (st : RecState)
    (pre : List TickEnv) (t t2 : TickEnv) (post : List TickEnv)
    (hpre : ∀ x ∈ pre, tickStops x = false)
    (ht : t.status = TwitchResponseStatus.unauthorized) :
    loopRun cfg st (pre ++ t :: t2 :: post) =
      loopRun cfg st pre ++
        Event.check (endState cfg st pre).access_token :: Event.fetchToken ::
          Event.notifyError ::
          loopRun cfg
            (RecState.mk t.newToken (endState cfg st pre).stream_start_time)
            (t2 :: post) ∧
    (loopRun cfg (RecState.mk t.newToken (endState cfg st pre).stream_start_time)
        (t2 :: post)).head? = some (Event.check t.newToken) := by
  refine ⟨?_, loopRun_cons_head cfg _ t2 post⟩
  rw [loopRun_append cfg st pre (t :: t2 :: post) hpre]
  congr 1
  obtain ⟨status, info, tnow, today, cp, nt⟩ := t
  have hs : status = TwitchResponseStatus.unauthorized := ht
  subst hs
  rfl

/-- Witness for `unauthorized_tick_refreshes_token`: an unauthorized poll
(refresh yields `"tok1"`) followed by an offline poll. -/
theorem unauthorized_tick_refreshes_token_witness :
    loopRun (Config.mk "chan" "root") (RecState.mk "tok0" none)
        ([] ++ TickEnv.mk TwitchResponseStatus.unauthorized none "" "" false "tok1" ::
          TickEnv.mk TwitchResponseStatus.offline none "" "" false "" :: []) =
      loopRun (Config.mk "chan" "root") (RecState.mk "tok0" none) [] ++
        Event.check
            (endState (Config.mk "chan" "root") (RecState.mk "tok0" none) []).access_token ::
          Event.fetchToken :: Event.notifyError ::
          loopRun (Config.mk "chan" "root")
            (RecState.mk "tok1"
              (endState (Config.mk "chan" "root") (RecState.mk "tok0" none)
                []).stream_start_time)
            (TickEnv.mk TwitchResponseStatus.offline none "" "" false "" :: []) ∧
    (loopRun (Config.mk "chan" "root")
        (RecState.mk "tok1"
          (endState (Config.mk "chan" "root") (RecState.mk "tok0" none)
            []).stream_start_time)
        (TickEnv.mk TwitchResponseStatus.offline none "" "" false "" :: [])).head? =
      some (Event.check "tok1") :=
  unauthorized_tick_refreshes_token (Config.mk "chan" "root")
    (RecState.mk "tok0" none) []
    (TickEnv.mk TwitchResponseStatus.unauthorized none "" "" false "tok1")
    (TickEnv.mk TwitchResponseStatus.offline none "" "" false "") []
    (by simp) rfl

theorem pathJoin_right_inj (a b c : String) (h : pathJoin a b = pathJoin a c) :
    b = c := by
  have hd := congrArg String.data h
  simp only [pathJoin, String.data_append, List.append_assoc] at hd
  exact String.ext (List.append_cancel_left (List.append_cancel_left hd))

theorem sweepFiles_no_raise (rp pp : String) (l : List SweepEntry)
    (h : ∀ e ∈ l, e.raises = false) :
    sweepFiles rp pp l =
      l.map (fun e => Event.processFile (pathJoin rp e.name) (pathJoin pp e.name)) := by
  induction l with
  | nil => rfl
  | cons e rest ih =>
      have he : e.raises = false := h e (List.mem_cons_self e rest)
      simp [sweepFiles, he, ih (fun x hx => h x (List.mem_cons_of_mem e hx))]

theorem count_processFile_map_absent (rp pp name : String)
    (l : List SweepEntry) (h : name ∉ l.map SweepEntry.name) :
    (l.map (fun e => Event.processFile (pathJoin rp e.name) (pathJoin pp e.name))).count
      (Event.processFile (pathJoin rp name) (pathJoin pp name)) = 0 := by
  induction l with
  | nil => rfl
  | cons e rest ih =>
      simp only [List.map_cons, List.mem_cons, not_or] at h
      obtain ⟨hn, hrest⟩ := h
      have hne : Event.processFile (pathJoin rp name) (pathJoin pp name) ≠
          Event.processFile (pathJoin rp e.name) (pathJoin pp e.name) := by
        intro heq
        have h1 : pathJoin rp name = pathJoin rp e.name :=
          (Event.processFile.injEq _ _ _ _).mp heq |>.1
        exact hn (pathJoin_right_inj rp name e.name h1)
      simp [List.count_cons, hne, ih hrest]

theorem count_processFile_map_present (rp pp name : String)
    (l : List SweepEntry) (hnodup : (l.map SweepEntry.name).Nodup)
    (hmem : name ∈ l.map SweepEntry.name) :
    (l.map (fun e => Event.processFile (pathJoin rp e.name) (pathJoin pp e.name))).count
      (Event.processFile (pathJoin rp name) (pathJoin pp name)) = 1 := by
  induction l with
  | nil => cases hmem
  | cons e rest ih =>
      simp only [List.map_cons, List.nodup_cons] at hnodup
      obtain ⟨hnotin, hnodup2⟩ := hnodup
      rcases List.mem_cons.mp hmem with heq | hmem2
      · subst heq
        simp [List.count_cons, count_processFile_map_absent rp pp e.name rest hnotin]
      · have hn : ¬(e.name = name) := fun h => hnotin (h ▸ hmem2)
        have hne : Event.processFile (pathJoin rp name) (pathJoin pp name) ≠
            Event.processFile (pathJoin rp e.name) (pathJoin pp e.name) := by
          intro heq
          have h1 : pathJoin rp name = pathJoin rp e.name :=
            (Event.processFile.injEq _ _ _ _).mp heq |>.1
          exact hn (pathJoin_right_inj rp name e.name h1).symm
        simp [List.count_cons, hne, ih hnodup2 hmem2]

/-- **C9, counterexample.**  The claim fails twice.  (i) It says the sweep
over the raw-capture directory runs before the polling loop begins: in
`run` (lines 77-83) the polling-loop thread is started *first*
(`stream_check_thread.start()`, line 80) and only then does
`process_recorded_files` run on the main thread, so in the main thread's
action order the loop-thread start precedes every sweep action — the two
run concurrently, not sweep-first.  (ii) It says every pre-existing
regular file is processed exactly once: the whole `for` loop sits in one
`try` (lines 149-158), so when the first file's `process_recorded_file`
call raises (e.g. `shutil.move` raising `IOError` under
`--disable-ffmpeg`), the sweep is aborted and the second regular file
`"b.mp4"` receives zero invocations. -/
theorem run_starts_loop_thread_before_sweep :
    run (Config.mk "chan" "root")
        (SweepEnv.mk false false [SweepEntry.mk "a.mp4" true false]) =
      [Event.startLoopThread,
       Event.mkdir (pathJoin (pathJoin "root" "recorded") "chan"),
       Event.mkdir (pathJoin (pathJoin "root" "processed") "chan"),
       Event.processFile (pathJoin (pathJoin (pathJoin "root" "recorded") "chan") "a.mp4")
         (pathJoin (pathJoin (pathJoin "root" "processed") "chan") "a.mp4")] ∧
    (run (Config.mk "chan" "root")
        (SweepEnv.mk false false [SweepEntry.mk "a.mp4" true false])).head? =
      some Event.startLoopThread ∧
    run (Config.mk "chan" "root")
        (SweepEnv.mk true true
          [SweepEntry.mk "a.mp4" true true, SweepEntry.mk "b.mp4" true false]) =
      [Event.startLoopThread,
       Event.processFile (pathJoin (pathJoin (pathJoin "root" "recorded") "chan") "a.mp4")
         (pathJoin (pathJoin (pathJoin "root" "processed") "chan") "a.mp4")] ∧
    (run (Config.mk "chan" "root")
        (SweepEnv.mk true true
          [SweepEntry.mk "a.mp4" true true, SweepEntry.mk "b.mp4" true false])).count
        (Event.processFile
          (pathJoin (pathJoin (pathJoin "root" "recorded") "chan") "b.mp4")
          (pathJoin (pathJoin (pathJoin "root" "processed") "chan") "b.mp4")) = 0 :=
  ⟨rfl, rfl, rfl, by decide⟩

/-- **C9, amended.**  At startup the polling-loop thread is started first
and the sweep then runs on the main thread, concurrently with the loop
(not before it); the sweep creates the raw and processed directories when
absent and, provided no `process_recorded_file` call raises, invokes the
post-processor exactly once for each regular file listed in the raw
directory (a raising call is caught and logged but aborts the sweep,
leaving the remaining files uninvoked — see the counterexample). -/
theorem run_sweep_creates_dirs_and_processes_each_once (cfg : Config)
    (env : SweepEnv) (ent : SweepEntry)
    (hnodup : (env.entries.map SweepEntry.name).Nodup)
    (hent : ent ∈ env.entries) (hfile : ent.isfile = true)
    (hnoraise : ∀ e ∈ env.entries, e.isfile = true → e.raises = false) :
    run cfg env = Event.startLoopThread :: process_recorded_files cfg env ∧
    (env.recordedDirExists = true ∨
      Event.mkdir (pathJoin (pathJoin cfg.root_path "recorded") cfg.username) ∈
        run cfg env) ∧
    (env.processedDirExists = true ∨
      Event.mkdir (pathJoin (pathJoin cfg.root_path "processed") cfg.username) ∈
        run cfg env) ∧
    (run cfg env).count
        (Event.processFile
          (pathJoin (pathJoin (pathJoin cfg.root_path "recorded") cfg.username) ent.name)
          (pathJoin (pathJoin (pathJoin cfg.root_path "processed") cfg.username) ent.name))
      = 1 := by
  obtain ⟨rde, pde, entries⟩ := env
  refine ⟨rfl, ?_, ?_, ?_⟩
  · cases rde with
    | false => exact Or.inr (by simp [run, process_recorded_files])
    | true => exact Or.inl rfl
  · cases pde with
    | false => exact Or.inr (by simp [run, process_recorded_files])
    | true => exact Or.inl rfl
  · have hsub : List.Sublist
        ((entries.filter (fun e => e.isfile)).map SweepEntry.name)
        (entries.map SweepEntry.name) :=
      (List.filter_sublist entries).map SweepEntry.name
    have hnodup2 : ((entries.filter (fun e => e.isfile)).map SweepEntry.name).Nodup :=
      hnodup.sublist hsub
    have hmemf : ent ∈ entries.filter (fun e => e.isfile) :=
      List.mem_filter.mpr ⟨hent, hfile⟩
    have hmemn : ent.name ∈ (entries.filter (fun e => e.isfile)).map SweepEntry.name :=
      List.mem_map.mpr ⟨ent, hmemf, rfl⟩
    have hnr : ∀ e ∈ entries.filter (fun e => e.isfile), e.raises = false := by
      intro e he
      obtain ⟨h1, h2⟩ := List.mem_filter.mp he
      exact hnoraise e h1 h2
    have hmain := count_processFile_map_present
      (pathJoin (pathJoin cfg.root_path "recorded") cfg.username)
      (pathJoin (pathJoin cfg.root_path "processed") cfg.username)
      ent.name (entries.filter (fun e => e.isfile)) hnodup2 hmemn
    cases rde <;> cases pde <;>
      simpa [run, process_recorded_files, sweepFiles_no_raise _ _ _ hnr,
        List.count_cons, List.count_append] using hmain

/-- Witness for `run_sweep_creates_dirs_and_processes_each_once`: a sweep
directory holding the regular file `"a.mp4"` (whose processing does not
raise) and a subdirectory `"sub"` (filtered out, so its `raises` flag is
irrelevant). -/
theorem run_sweep_creates_dirs_and_processes_each_once_witness :
    run (Config.mk "chan" "root")
        (SweepEnv.mk false false
          [SweepEntry.mk "a.mp4" true false, SweepEntry.mk "sub" false true]) =
      Event.startLoopThread ::
        process_recorded_files (Config.mk "chan" "root")
          (SweepEnv.mk false false
            [SweepEntry.mk "a.mp4" true false, SweepEntry.mk "sub" false true]) ∧
    ((SweepEnv.mk false false
          [SweepEntry.mk "a.mp4" true false,
           SweepEntry.mk "sub" false true]).recordedDirExists = true ∨
      Event.mkdir (pathJoin (pathJoin "root" "recorded") "chan") ∈
        run (Config.mk "chan" "root")
          (SweepEnv.mk false false
            [SweepEntry.mk "a.mp4" true false, SweepEntry.mk "sub" false true])) ∧
    ((SweepEnv.mk false false
          [SweepEntry.mk "a.mp4" true false,
           SweepEntry.mk "sub" false true]).processedDirExists = true ∨
      Event.mkdir (pathJoin (pathJoin "root" "processed") "chan") ∈
        run (Config.mk "chan" "root")
          (SweepEnv.mk false false
            [SweepEntry.mk "a.mp4" true false, SweepEntry.mk "sub" false true])) ∧
    (run (Config.mk "chan" "root")
        (SweepEnv.mk false false
          [SweepEntry.mk "a.mp4" true false, SweepEntry.mk "sub" false true])).count
        (Event.processFile
          (pathJoin (pathJoin (pathJoin "root" "recorded") "chan") "a.mp4")
          (pathJoin (pathJoin (pathJoin "root" "processed") "chan") "a.mp4")) = 1 :=
  run_sweep_creates_dirs_and_processes_each_once (Config.mk "chan" "root")
    (SweepEnv.mk false false
      [SweepEntry.mk "a.mp4" true false, SweepEntry.mk "sub" false true])
    (SweepEntry.mk "a.mp4" true false)
    (by decide) (by decide) rfl (by decide)
